import Mathlib

/-!
Verification of the RFB (VNC) handshake and session behavior implemented by
the repository test scripts `test_vnc_server.py` (server role, class
`MockVNCServer`) and `test_vnc_protocol.py` (client role, function
`test_vnc_handshake`).

The embedding models the byte-oriented transport as a `List Nat` of byte
values.  A blocking `socket.recv(n)` on a stream whose remaining contents are
`s` is modelled as returning `s.take n` and leaving `s.drop n`: `recv` hands
over at most `n` bytes and fewer only when the stream has ended.  Each role is
a pure function from the inbound byte stream to a result recording the final
handshake state, the bytes written to the socket (in order), and the
unconsumed input.
-/

/-! ## Byte-level helpers (WireCodec) -/

/-- Big-endian 16-bit encoding, as produced by pack with H after a bang. -/
def be16 (v : Nat) : List Nat := [v / 256 % 256, v % 256]

/-- Big-endian 32-bit encoding, as produced by pack with I after a bang. -/
def be32 (v : Nat) : List Nat :=
  [v / 16777216 % 256, v / 65536 % 256, v / 256 % 256, v % 256]

/-- Big-endian value of a byte list, as read by unpack. -/
def beVal (bs : List Nat) : Nat := bs.foldl (fun a b => a * 256 + b) 0

/-- Bounds check helper for byte ranges. -/
def btwn (lo hi b : Nat) : Bool := decide (lo ≤ b ∧ b ≤ hi)

/-- Python str.isspace for ASCII code points: the characters stripped by
str.strip() on an ASCII string (tab, LF, VT, FF, CR, FS, GS, RS, US, space). -/
def pySpace (b : Nat) : Bool :=
  b = 9 || b = 10 || b = 11 || b = 12 || b = 13 ||
  b = 28 || b = 29 || b = 30 || b = 31 || b = 32

/-- Python str.strip() on a byte string: remove leading and trailing
whitespace. -/
def stripBytes (l : List Nat) : List Nat :=
  ((l.dropWhile pySpace).reverse.dropWhile pySpace).reverse

/-- Python str.startswith: the first argument is the pattern. -/
def listStartsWith : List Nat → List Nat → Bool
  | [], _ => true
  | _ :: _, [] => false
  | a :: as, b :: bs => a = b && listStartsWith as bs

/-- Validity of a byte list as UTF-8, following the RFC 3629 table that
Python bytes.decode enforces (continuation ranges, no overlong forms, no
surrogates, four-byte limit).  Used where the client calls decode. -/
def utf8Valid : List Nat → Bool
  | [] => true
  | b :: r =>
    if b < 128 then utf8Valid r
    else if btwn 194 223 b then
      match r with
      | c :: r2 => btwn 128 191 c && utf8Valid r2
      | [] => false
    else if b = 224 then
      match r with
      | c :: d :: r2 => btwn 160 191 c && btwn 128 191 d && utf8Valid r2
      | _ => false
    else if btwn 225 236 b then
      match r with
      | c :: d :: r2 => btwn 128 191 c && btwn 128 191 d && utf8Valid r2
      | _ => false
    else if b = 237 then
      match r with
      | c :: d :: r2 => btwn 128 159 c && btwn 128 191 d && utf8Valid r2
      | _ => false
    else if btwn 238 239 b then
      match r with
      | c :: d :: r2 => btwn 128 191 c && btwn 128 191 d && utf8Valid r2
      | _ => false
    else if b = 240 then
      match r with
      | c :: d :: e :: r2 =>
        btwn 144 191 c && btwn 128 191 d && btwn 128 191 e && utf8Valid r2
      | _ => false
    else if btwn 241 243 b then
      match r with
      | c :: d :: e :: r2 =>
        btwn 128 191 c && btwn 128 191 d && btwn 128 191 e && utf8Valid r2
      | _ => false
    else if b = 244 then
      match r with
      | c :: d :: e :: r2 =>
        btwn 128 143 c && btwn 128 191 d && btwn 128 191 e && utf8Valid r2
      | _ => false
    else false

/-! ## Protocol constants, from test_vnc_server.py -/

/-- MockVNCServer.RFB_VERSION: the 12 bytes of "RFB 003.008" and a newline. -/
def RFB_VERSION : List Nat := [82, 70, 66, 32, 48, 48, 51, 46, 48, 48, 56, 10]

/-- MockVNCServer.SECURITY_NONE. -/
def SECURITY_NONE : Nat := 1

/-- The security types the server offers (step 3 of handle_client packs
count 1 followed by SECURITY_NONE, so the offered list is just None). -/
def securityOffer : List Nat := [SECURITY_NONE]

/-- The 16 pixel-format bytes the server packs in step 7.  The pack format
string has no byte-order marker, so the three 16-bit max fields use the
native little-endian order of the host; the struct is
bpp 32, depth 24, littleEndian, trueColor, maxes 255, shifts 16/8/0,
and 3 padding bytes. -/
def pixelFormatBytes : List Nat :=
  [32, 24, 0, 1, 255, 0, 255, 0, 255, 0, 16, 8, 0, 0, 0, 0]

/-- The desktop name the server sends: the 15 bytes of "Horcrux Test VM". -/
def desktopNameBytes : List Nat :=
  [72, 111, 114, 99, 114, 117, 120, 32, 84, 101, 115, 116, 32, 86, 77]

/-- ServerInit as built in step 7 of handle_client: width 1024, height 768,
pixel format, 32-bit name length, name bytes. -/
def serverInitBytes : List Nat :=
  be16 1024 ++ be16 768 ++ pixelFormatBytes ++
  be32 desktopNameBytes.length ++ desktopNameBytes

/-! ## Server role: MockVNCServer.handle_client, steps 1 to 7 -/

/-- Terminal outcome of the server-role handshake: either all seven steps
completed (the session loop is then entered) or handle_client returned
early. -/
inductive SState
  | Established
  | Failed
deriving DecidableEq

/-- Result of running the server-role handshake: final state, every byte the
server wrote (in order), and the unconsumed inbound bytes. -/
structure ServerResult where
  state : SState
  sent : List Nat
  rest : List Nat
deriving DecidableEq

/-- Server-role handshake of MockVNCServer.handle_client on an inbound byte
stream.  Step 1 sends RFB_VERSION; step 2 receives 12 bytes and checks only
the received length, never the content; step 3 sends the offer count and
type; step 4 receives the 1-byte selection and checks only the length, not
membership in the offer; step 5 sends the 4-byte result 0; step 6 receives
the 1-byte ClientInit; step 7 sends ServerInit. -/
def serverHandshake (input : List Nat) : ServerResult :=
  if (input.take 12).length = 12 then
    let s1 := input.drop 12
    if (s1.take 1).length = 1 then
      let s2 := s1.drop 1
      if (s2.take 1).length = 1 then
        ⟨.Established,
          RFB_VERSION ++ [1, SECURITY_NONE] ++ be32 0 ++ serverInitBytes,
          s2.drop 1⟩
      else ⟨.Failed, RFB_VERSION ++ [1, SECURITY_NONE] ++ be32 0, s2.drop 1⟩
    else ⟨.Failed, RFB_VERSION ++ [1, SECURITY_NONE], s1.drop 1⟩
  else ⟨.Failed, RFB_VERSION, input.drop 12⟩

/-! ## Client role: test_vnc_handshake, steps 1 to 7 -/

/-- Pixel format fields as the client parses them in step 7: single bytes at
offsets 0 to 3 and 10 to 12 of the pixel-format slice, big-endian 16-bit
fields at offsets 4 to 9. -/
structure PixelFormat where
  bitsPerPixel : Nat
  depth : Nat
  bigEndian : Nat
  trueColor : Nat
  redMax : Nat
  greenMax : Nat
  blueMax : Nat
  redShift : Nat
  greenShift : Nat
  blueShift : Nat
deriving DecidableEq

/-- Parse the pixel-format slice exactly as the client does. -/
def parsePF (pfb : List Nat) : PixelFormat :=
  { bitsPerPixel := pfb.getD 0 0
    depth := pfb.getD 1 0
    bigEndian := pfb.getD 2 0
    trueColor := pfb.getD 3 0
    redMax := beVal ((pfb.drop 4).take 2)
    greenMax := beVal ((pfb.drop 6).take 2)
    blueMax := beVal ((pfb.drop 8).take 2)
    redShift := pfb.getD 10 0
    greenShift := pfb.getD 11 0
    blueShift := pfb.getD 12 0 }

/-- Negotiated framebuffer parameters held by the client once its step 7
completes. -/
structure ServerInitData where
  width : Nat
  height : Nat
  pf : PixelFormat
  desktopName : List Nat
deriving DecidableEq

/-- Reason attached to a client-role failure return.  Each constructor names
the early-return branch of test_vnc_handshake it models: a short read, a
version string rejected in step 1, the count-0 refusal of step 3, a missing
security type None in the offer, a nonzero security result in step 5, or a
byte string that fails UTF-8 decoding. -/
inductive FailReason
  | TruncatedFrame
  | InvalidVersion
  | SecurityRefused
  | NoCommonSecurityType
  | SecurityResultFailure
  | InvalidEncoding
deriving DecidableEq

/-- Final state of the client-role handshake. -/
inductive CState
  | Established (si : ServerInitData)
  | Failed (r : FailReason)
deriving DecidableEq

/-- True when the client handshake ended in a failure return. -/
def stateFailed : CState → Bool
  | .Failed _ => true
  | .Established _ => false

/-- Result of running the client-role handshake: final state, every byte the
client wrote (in order), and the unconsumed inbound bytes. -/
structure ClientResult where
  state : CState
  sent : List Nat
  rest : List Nat
deriving DecidableEq

/-- Steps 5 to 7 of test_vnc_handshake, entered after the security type was
selected.  Step 5 receives the 4-byte security result; on a nonzero result
it reads one length-prefixed reason string (decode errors there are swallowed
by the bare except) and returns failure.  On result 0, step 6 sends the
ClientInit byte 1, and step 7 receives a 24-byte block, parses width, height
and the pixel-format slice from it, then reads 4 further bytes as the name
length and that many bytes as the name, which must decode as UTF-8. -/
def clientFromResult (sent s : List Nat) : ClientResult :=
  let rw := s.take 4
  if rw.length = 4 then
    if beVal rw = 0 then
      let sent1 := sent ++ [1]
      let t := s.drop 4
      let si := t.take 24
      if si.length = 24 then
        let t2 := t.drop 24
        let lw := t2.take 4
        if lw.length = 4 then
          let nm := (t2.drop 4).take (beVal lw)
          let t3 := (t2.drop 4).drop (beVal lw)
          if utf8Valid nm then
            ⟨.Established
              ⟨beVal (si.take 2), beVal ((si.drop 2).take 2),
                parsePF (si.drop 4), nm⟩, sent1, t3⟩
          else ⟨.Failed .InvalidEncoding, sent1, t3⟩
        else ⟨.Failed .TruncatedFrame, sent1, t2.drop 4⟩
      else ⟨.Failed .TruncatedFrame, sent1, t.drop 24⟩
    else
      let t := s.drop 4
      let lw := t.take 4
      if lw.length = 4 then
        ⟨.Failed .SecurityResultFailure, sent, (t.drop 4).drop (beVal lw)⟩
      else ⟨.Failed .SecurityResultFailure, sent, t.drop 4⟩
  else ⟨.Failed .TruncatedFrame, sent, s.drop 4⟩

/-- Steps 3 and 4 of test_vnc_handshake: receive the 1-byte offer count; on
count 0 read the length-prefixed refusal reason and fail; otherwise read one
byte per offered type, fail unless type 1 (None) is among them, and send the
1-byte selection before continuing with the security result. -/
def clientFromOffer (sent s : List Nat) : ClientResult :=
  let cb := s.take 1
  if cb.length = 1 then
    let n := cb.getD 0 0
    let s1 := s.drop 1
    if n = 0 then
      let lw := s1.take 4
      if lw.length = 4 then
        let rsn := (s1.drop 4).take (beVal lw)
        let s2 := (s1.drop 4).drop (beVal lw)
        if utf8Valid rsn then ⟨.Failed .SecurityRefused, sent, s2⟩
        else ⟨.Failed .InvalidEncoding, sent, s2⟩
      else ⟨.Failed .TruncatedFrame, sent, s1.drop 4⟩
    else
      let ts := s1.take n
      if ts.length = n then
        if ts.contains 1 then clientFromResult (sent ++ [1]) (s1.drop n)
        else ⟨.Failed .NoCommonSecurityType, sent, s1.drop n⟩
      else ⟨.Failed .TruncatedFrame, sent, s1.drop n⟩
  else ⟨.Failed .TruncatedFrame, sent, s.drop 1⟩

/-- The version acceptance test of step 1: the 12 bytes must decode as ASCII
and, after str.strip(), start with "RFB 003.". -/
def versionMagic : List Nat := [82, 70, 66, 32, 48, 48, 51, 46]

/-- Acceptance predicate the client applies to the received version bytes. -/
def versionOk (v : List Nat) : Bool :=
  v.all (fun b => decide (b < 128)) && listStartsWith versionMagic (stripBytes v)

/-- Client-role handshake of test_vnc_handshake on an inbound byte stream.
Step 1 receives 12 bytes and rejects a short read or a version failing
versionOk before anything is sent; step 2 echoes the received bytes
unchanged; the remaining steps are clientFromOffer and clientFromResult. -/
def clientHandshake (input : List Nat) : ClientResult :=
  let v := input.take 12
  let s1 := input.drop 12
  if v.length = 12 then
    if versionOk v then clientFromOffer v s1
    else ⟨.Failed .InvalidVersion, [], s1⟩
  else ⟨.Failed .TruncatedFrame, [], s1⟩

/-! ## Server session loop: MockVNCServer.handle_client, step 8 -/

/-- Outcome of running the step-8 loop over a sequence of transport chunks:
the bytes the server wrote back, the first byte of each chunk it dispatched
on, and whether the loop is still running (it breaks only on a 0-byte
read). -/
structure SessionResult where
  sent : List Nat
  dispatched : List Nat
  stillOpen : Bool
deriving DecidableEq

/-- Bytes the server writes in response to one received chunk, dispatching on
the first byte alone: for message type 3 (FramebufferUpdateRequest) it packs
an empty FramebufferUpdate, update type 0, one padding byte, big-endian
16-bit rectangle count 0; every other type is only logged. -/
def sessionResponse (t : Nat) : List Nat :=
  if t = 3 then [0] ++ [0] ++ be16 0 else []

/-- The step-8 while loop.  Each iteration performs one recv of up to 1024
bytes, yielding one chunk; an empty chunk is the 0-byte read of a
disconnected client and breaks the loop; otherwise the server dispatches
once on the first byte of the chunk and keeps looping.  When the supplied
chunk sequence is exhausted the loop is still open, waiting on its next
read. -/
def sessionLoop : List (List Nat) → SessionResult
  | [] => ⟨[], [], true⟩
  | [] :: _ => ⟨[], [], false⟩
  | (t :: _) :: more =>
    let r := sessionLoop more
    ⟨sessionResponse t ++ r.sent, t :: r.dispatched, r.stillOpen⟩

/-- FramebufferUpdateRequest bytes as the client packs them in step 8:
type 3, incremental flag, then big-endian x, y, width, height. -/
def fburRequest (inc x y w h : Nat) : List Nat :=
  [3, inc] ++ be16 x ++ be16 y ++ be16 w ++ be16 h

/-! ## Per-type message framing, modelled from the spec -/

/-- Modelled from the spec: byte length of one client-to-server message per
the wire table (a fixed 20 for SetPixelFormat, 4 plus 4 per encoding for
SetEncodings, 10 for FramebufferUpdateRequest, 8 for KeyEvent, 6 for
PointerEvent, 8 plus the text length for ClientCutText), none when the tag is
unknown or the header is incomplete.  No definition in the repository
computes these widths; this one exists to compare the session loop against
the spec sentence it came from. -/
def specMsgLen (bs : List Nat) : Option Nat :=
  match bs with
  | [] => none
  | t :: r =>
    if t = 0 then some 20
    else if t = 2 then
      match r with
      | _ :: c1 :: c2 :: _ => some (4 + 4 * (c1 * 256 + c2))
      | _ => none
    else if t = 3 then some 10
    else if t = 4 then some 8
    else if t = 5 then some 6
    else if t = 6 then
      match r with
      | _ :: _ :: _ :: l1 :: l2 :: l3 :: l4 :: _ =>
        some (8 + beVal [l1, l2, l3, l4])
      | _ => none
    else none

/-- Modelled from the spec: split a buffer into consecutive messages by the
per-type widths of specMsgLen, returning the sequence of type tags.  Fuel
bounds the recursion; each step consumes at least one byte. -/
def specSplit (fuel : Nat) (bs : List Nat) : List Nat :=
  match fuel, bs with
  | 0, _ => []
  | _, [] => []
  | f + 1, t :: r =>
    match specMsgLen (t :: r) with
    | some n => t :: specSplit f ((t :: r).drop n)
    | none => []

/-- Message tags present in a buffer, per the per-type widths of the spec. -/
def specMessages (bs : List Nat) : List Nat := specSplit bs.length bs

/-! ## Read timeouts: the socket operations each role performs -/

/-- One socket operation, as issued by the scripts: set the read timeout (in
milliseconds, none meaning plain blocking mode), read up to n bytes, or
write n bytes. -/
inductive SockOp
  | setT (ms : Option Nat)
  | recvB (n : Nat)
  | sendB (n : Nat)
deriving DecidableEq

/-- Timeout in force at each read of an operation sequence, given the
timeout in force at the start.  A freshly created Python socket starts in
blocking mode with no timeout. -/
def recvTimeouts : Option Nat → List SockOp → List (Option Nat)
  | _, [] => []
  | _, .setT t :: r => recvTimeouts t r
  | cur, .recvB _ :: r => cur :: recvTimeouts cur r
  | cur, .sendB _ :: r => recvTimeouts cur r

/-- Socket operations of test_vnc_handshake through its step 7, on the
scenario-A exchange (one offered type, a 15-byte name): settimeout 5.0 right
after socket creation, then the handshake reads and writes in program
order. -/
def clientHandshakeOps : List SockOp :=
  [.setT (some 5000), .recvB 12, .sendB 12, .recvB 1, .recvB 1, .sendB 1,
   .recvB 4, .sendB 1, .recvB 24, .recvB 4, .recvB 11]

/-- Socket operations of MockVNCServer.handle_client, steps 1 to 7: no
settimeout call occurs before or between the three handshake reads. -/
def serverHandshakeOps : List SockOp :=
  [.sendB 12, .recvB 12, .sendB 2, .recvB 1, .sendB 4, .recvB 1, .sendB 39]

/-- Socket operations of one iteration of the step-8 session loop: the first
settimeout of the connection, 1.0 seconds, then the chunk read. -/
def serverSessionOps : List SockOp :=
  [.setT (some 1000), .recvB 1024]

/-! ## Scenario constants -/

/-- Scenario A inbound stream for the client: everything the server writes
when offered type None is selected. -/
def scenarioAInput : List Nat :=
  RFB_VERSION ++ [1, SECURITY_NONE] ++ be32 0 ++ serverInitBytes

/-- Bytes the client writes during a successful handshake: the version echo,
the selection of type None, and the ClientInit byte. -/
def clientSentA : List Nat := RFB_VERSION ++ [1] ++ [1]

/-- Pixel format as the client parses the scenario-A ServerInit.  The 16-bit
max fields read as 65280 because the server packed them little-endian while
the client unpacks them big-endian. -/
def scenarioPF : PixelFormat :=
  { bitsPerPixel := 32, depth := 24, bigEndian := 0, trueColor := 1,
    redMax := 65280, greenMax := 65280, blueMax := 65280,
    redShift := 16, greenShift := 8, blueShift := 0 }

/-- The desktop name the client actually ends up with in scenario A: the 11
bytes of "rux Test VM".  The client consumes the 4-byte name-length word
inside its 24-byte prefix read and then reinterprets the first 4 name bytes
"Horc" as a length, so the name it decodes is the remaining tail. -/
def truncNameBytes : List Nat :=
  [114, 117, 120, 32, 84, 101, 115, 116, 32, 86, 77]

/-- The 7 bytes of "Test VM", the desktop name the spec asserts. -/
def testVMBytes : List Nat := [84, 101, 115, 116, 32, 86, 77]

/-- A well-formed 12-byte version the server never sent: "RFB 999.999" and a
newline. -/
def badVersion : List Nat := [82, 70, 66, 32, 57, 57, 57, 46, 57, 57, 57, 10]

/-- A 12-byte version string starting with two spaces: "  RFB 003.0" and a
newline.  Its raw decoding does not start with "RFB 003." but its stripped
form does. -/
def wsVersion : List Nat := [32, 32, 82, 70, 66, 32, 48, 48, 51, 46, 48, 10]

/-- The scenario-B FramebufferUpdateRequest: full update of the whole
1024 by 768 framebuffer. -/
def c6Request : List Nat := fburRequest 0 0 0 1024 768

/-- A KeyEvent message: down flag 1, two padding bytes, keysym 65. -/
def keyEventA : List Nat := [4, 1, 0, 0] ++ be32 65

/-- One transport chunk carrying two back-to-back client messages. -/
def coalescedChunk : List Nat := c6Request ++ keyEventA

/-! ## Helper lemmas -/

/-- The client never reports InvalidVersion from the security-result phase
onward. -/
lemma cfr_ne_invalid (sent s : List Nat) :
    (clientFromResult sent s).state ≠ CState.Failed FailReason.InvalidVersion := by
  simp only [clientFromResult]
  split_ifs <;> simp

/-- The client never reports InvalidVersion from the security-offer phase
onward. -/
lemma cfo_ne_invalid (sent s : List Nat) :
    (clientFromOffer sent s).state ≠ CState.Failed FailReason.InvalidVersion := by
  simp only [clientFromOffer]
  split_ifs <;> first | exact cfr_ne_invalid _ _ | simp

/-- From the security-result phase onward the client only appends to the
bytes already sent. -/
lemma cfr_sent_ext (sent s : List Nat) :
    ∃ ex, (clientFromResult sent s).sent = sent ++ ex := by
  simp only [clientFromResult]
  split_ifs <;> first | exact ⟨[1], rfl⟩ | exact ⟨[], by simp⟩

/-- From the security-offer phase onward the client only appends to the
bytes already sent. -/
lemma cfo_sent_ext (sent s : List Nat) :
    ∃ ex, (clientFromOffer sent s).sent = sent ++ ex := by
  simp only [clientFromOffer]
  split_ifs <;> first
    | (obtain ⟨ex, he⟩ := cfr_sent_ext (sent ++ [1]) _
       exact ⟨[1] ++ ex, by rw [he, List.append_assoc]⟩)
    | exact ⟨[], (List.append_nil sent).symm⟩

/-! ## Claim C1 -/

/-- C1 counterexample: running the client on the scenario-A stream does reach
Established with width 1024 and height 768, but the desktop name in the
negotiated state is "rux Test VM", not the "Test VM" the claim asserts, and
not the "Horcrux Test VM" the server sent. -/
theorem c1_counterexample :
    (clientHandshake scenarioAInput).state =
      CState.Established ⟨1024, 768, scenarioPF, truncNameBytes⟩ ∧
    truncNameBytes ≠ testVMBytes ∧
    truncNameBytes ≠ desktopNameBytes := by decide

/-- C1 amended: on scenario A (server offers the single type None, client
selects it, result 0, then ServerInit with width 1024, height 768 and
desktop name "Horcrux Test VM"), the client handshake reaches Established
with width 1024 and height 768, but with desktop name "rux Test VM": the
client consumes the 4-byte name length inside its 24-byte prefix read and
then reinterprets the first 4 name bytes as the length, so the name differs
from what the server sent.  The scenario stream is exactly what the server
role emits when fed the client side of the exchange. -/
theorem c1_scenario_a :
    clientHandshake scenarioAInput =
      ⟨CState.Established ⟨1024, 768, scenarioPF, truncNameBytes⟩,
        clientSentA, []⟩ ∧
    (serverHandshake clientSentA).sent = scenarioAInput ∧
    truncNameBytes ≠ desktopNameBytes := by decide

/-! ## Claim C2 -/

/-- C2 counterexample: the server receives the 12-byte version
"RFB 999.999", which does not match the "RFB 003.008" it sent, yet the
handshake proceeds through the SecurityOfferList all the way to
Established instead of transitioning to Failed. -/
theorem c2_counterexample :
    (serverHandshake (badVersion ++ [1, 1])).state = SState.Established ∧
    (serverHandshake (badVersion ++ [1, 1])).sent =
      RFB_VERSION ++ [1, SECURITY_NONE] ++ be32 0 ++ serverInitBytes ∧
    badVersion ≠ RFB_VERSION := by decide

/-- C2 amended: after sending its ProtocolVersion the server checks only
that it received 12 bytes, never their content: for every 12-byte received
version, whatever its major.minor, it proceeds to send the
SecurityOfferList; only a short version read (fewer than 12 bytes, stream
ended) makes it return early with just the version sent. -/
theorem c2_version_unchecked (v rest inp : List Nat)
    (h12 : v.length = 12) (hshort : inp.length < 12) :
    (serverHandshake (v ++ rest)).sent.take 14 =
      RFB_VERSION ++ [1, SECURITY_NONE] ∧
    serverHandshake inp = ⟨.Failed, RFB_VERSION, []⟩ := by
  constructor
  · have e1 : (v ++ rest).take 12 = v := List.take_left' h12
    have e2 : (v ++ rest).drop 12 = rest := List.drop_left' h12
    simp only [serverHandshake, e1, e2, h12]
    split_ifs <;> rfl
  · have e1 : inp.take 12 = inp := List.take_of_length_le (by omega)
    have e2 : inp.drop 12 = [] := List.drop_eq_nil_of_le (by omega)
    have e3 : ¬ inp.length = 12 := by omega
    simp only [serverHandshake, e1, e2]
    rw [if_neg e3]

/-- C2 witness: the amended theorem applied to the version the server itself
sends and to the empty stream. -/
theorem c2_witness :
    (serverHandshake (RFB_VERSION ++ [1, 1])).sent.take 14 =
      RFB_VERSION ++ [1, SECURITY_NONE] ∧
    serverHandshake [] = ⟨.Failed, RFB_VERSION, []⟩ :=
  c2_version_unchecked RFB_VERSION [1, 1] [] (by decide) (by decide)

/-! ## Claim C3 -/

/-- C3 counterexample: the client selects security type 99, which is not a
member of the offered list, yet the server still sends the success result 0
and completes the handshake to Established instead of failing. -/
theorem c3_counterexample :
    serverHandshake (RFB_VERSION ++ [99, 1]) =
      ⟨.Established,
        RFB_VERSION ++ [1, SECURITY_NONE] ++ be32 0 ++ serverInitBytes, []⟩ ∧
    securityOffer.contains 99 = false := by decide

/-- C3 amended: the server accepts any 1-byte security selection without
checking membership in the SecurityOfferList: for every selection byte it
sends the success result 0 and proceeds, and only a 0-byte selection read
(stream ended) makes it return early. -/
theorem c3_selection_unchecked :
    (∀ (b ci : Nat) (rest : List Nat),
      serverHandshake (RFB_VERSION ++ [b, ci] ++ rest) =
        ⟨.Established,
          RFB_VERSION ++ [1, SECURITY_NONE] ++ be32 0 ++ serverInitBytes,
          rest⟩) ∧
    serverHandshake RFB_VERSION =
      ⟨.Failed, RFB_VERSION ++ [1, SECURITY_NONE], []⟩ :=
  ⟨fun _ _ _ => rfl, by decide⟩

/-! ## Claim C4 -/

/-- C4: after a valid version exchange, a security offer whose count byte is
0 makes the client read the 4-byte reason length and the reason bytes, then
fail; the only bytes it ever sent on the connection are the 12 bytes of the
version echo, so no ClientInit byte (and nothing else) follows, and the rest
of the stream is left unread. -/
theorem c4_empty_offer_fails (v lw rsn rest : List Nat)
    (h12 : v.length = 12) (hok : versionOk v = true)
    (hlw : lw.length = 4) (hlen : beVal lw = rsn.length) :
    stateFailed (clientHandshake (v ++ [0] ++ lw ++ rsn ++ rest)).state = true ∧
    (clientHandshake (v ++ [0] ++ lw ++ rsn ++ rest)).sent = v ∧
    (clientHandshake (v ++ [0] ++ lw ++ rsn ++ rest)).rest = rest := by
  have e1 : (v ++ ([0] ++ (lw ++ (rsn ++ rest)))).take 12 = v :=
    List.take_left' h12
  have e2 : (v ++ ([0] ++ (lw ++ (rsn ++ rest)))).drop 12 =
      [0] ++ (lw ++ (rsn ++ rest)) := List.drop_left' h12
  have e3 : (([0] : List Nat) ++ (lw ++ (rsn ++ rest))).take 1 = [0] :=
    List.take_left' rfl
  have e4 : (([0] : List Nat) ++ (lw ++ (rsn ++ rest))).drop 1 =
      lw ++ (rsn ++ rest) := List.drop_left' rfl
  have e5 : (lw ++ (rsn ++ rest)).take 4 = lw := List.take_left' hlw
  have e6 : (lw ++ (rsn ++ rest)).drop 4 = rsn ++ rest := List.drop_left' hlw
  have e7 : (rsn ++ rest).take (beVal lw) = rsn := List.take_left' hlen.symm
  have e8 : (rsn ++ rest).drop (beVal lw) = rest := List.drop_left' hlen.symm
  have step1 : clientHandshake (v ++ [0] ++ lw ++ rsn ++ rest) =
      clientFromOffer v ([0] ++ (lw ++ (rsn ++ rest))) := by
    simp only [clientHandshake, List.append_assoc, e1, e2, h12, hok,
      if_true, ite_true]
  rw [step1]
  simp only [clientFromOffer, e3, e4, e5, e6, e7, e8, hlw]
  cases hu : utf8Valid rsn <;> simp [hu, stateFailed]

/-- C4 witness: the empty-offer path at a concrete refusal with a 2-byte
reason and two unread trailing bytes. -/
theorem c4_witness :
    stateFailed (clientHandshake
      (RFB_VERSION ++ [0] ++ be32 2 ++ [78, 111] ++ [7, 7])).state = true ∧
    (clientHandshake
      (RFB_VERSION ++ [0] ++ be32 2 ++ [78, 111] ++ [7, 7])).sent =
      RFB_VERSION ∧
    (clientHandshake
      (RFB_VERSION ++ [0] ++ be32 2 ++ [78, 111] ++ [7, 7])).rest = [7, 7] :=
  c4_empty_offer_fails RFB_VERSION (be32 2) [78, 111] [7, 7]
    (by decide) (by decide) (by decide) (by decide)

/-! ## Claim C5 -/

/-- C5: at the security-result step of the client, a result word of 0 makes
the client proceed to send the single ClientInit byte 1 (and nothing else
for the rest of the handshake); a nonzero result word makes it read exactly
one length-prefixed reason string, send nothing, leave every byte after the
reason unread, and fail. -/
theorem c5_security_result (sent rest w lw rsn : List Nat)
    (hw : w.length = 4) (hnz : beVal w ≠ 0)
    (hlw : lw.length = 4) (hlen : beVal lw = rsn.length) :
    (clientFromResult sent (be32 0 ++ rest)).sent = sent ++ [1] ∧
    clientFromResult sent (w ++ (lw ++ (rsn ++ rest))) =
      ⟨.Failed .SecurityResultFailure, sent, rest⟩ := by
  constructor
  · have a1 : ((be32 0 : List Nat) ++ rest).take 4 = be32 0 :=
      List.take_left' rfl
    have a2 : ((be32 0 : List Nat) ++ rest).drop 4 = rest :=
      List.drop_left' rfl
    simp only [clientFromResult, a1, a2]
    norm_num [be32, beVal]
    split_ifs <;> rfl
  · have b1 : (w ++ (lw ++ (rsn ++ rest))).take 4 = w := List.take_left' hw
    have b2 : (w ++ (lw ++ (rsn ++ rest))).drop 4 = lw ++ (rsn ++ rest) :=
      List.drop_left' hw
    have b3 : (lw ++ (rsn ++ rest)).take 4 = lw := List.take_left' hlw
    have b4 : (lw ++ (rsn ++ rest)).drop 4 = rsn ++ rest := List.drop_left' hlw
    have b5 : (rsn ++ rest).drop (beVal lw) = rest := List.drop_left' hlen.symm
    simp only [clientFromResult, b1, b2, b3, b4, b5, hw, hlw, hnz,
      if_true, ite_true, if_false, ite_false]

/-- C5 witness: the theorem at a nonzero result word of value 1 with a
2-byte reason "No" and no trailing bytes. -/
theorem c5_witness :
    (clientFromResult RFB_VERSION (be32 0 ++ [])).sent = RFB_VERSION ++ [1] ∧
    clientFromResult RFB_VERSION ([0, 0, 0, 1] ++ (be32 2 ++ ([78, 111] ++ []))) =
      ⟨.Failed .SecurityResultFailure, RFB_VERSION, []⟩ :=
  c5_security_result RFB_VERSION [] [0, 0, 0, 1] (be32 2) [78, 111]
    (by decide) (by decide) (by decide) (by decide)

/-! ## Claim C7 -/

/-- C7: if the transport closes mid-ServerInit so that the read of the fixed
24-byte block returns fewer than 24 bytes, the client handshake returns the
short-read failure (TruncatedFrame): no Established state, no partially
parsed framebuffer parameters, and the stream is exhausted rather than
blocked. -/
theorem c7_truncated_serverinit (pb : List Nat) (h : pb.length < 24) :
    clientHandshake (RFB_VERSION ++ [1, SECURITY_NONE] ++ be32 0 ++ pb) =
      ⟨.Failed .TruncatedFrame, RFB_VERSION ++ [1, 1], []⟩ := by
  have red : clientHandshake (RFB_VERSION ++ [1, SECURITY_NONE] ++ be32 0 ++ pb) =
      clientFromResult (RFB_VERSION ++ [1]) (be32 0 ++ pb) := rfl
  rw [red]
  have a1 : ((be32 0 : List Nat) ++ pb).take 4 = be32 0 := List.take_left' rfl
  have a2 : ((be32 0 : List Nat) ++ pb).drop 4 = pb := List.drop_left' rfl
  have a3 : pb.take 24 = pb := List.take_of_length_le (by omega)
  have a4 : pb.drop 24 = [] := List.drop_eq_nil_of_le (by omega)
  simp only [clientFromResult, a1, a2, a3, a4]
  norm_num [be32, beVal]

/-- C7 witness: only 10 of the 24 required bytes arrive before the transport
closes. -/
theorem c7_witness :
    clientHandshake (RFB_VERSION ++ [1, SECURITY_NONE] ++ be32 0 ++
        List.replicate 10 0) =
      ⟨.Failed .TruncatedFrame, RFB_VERSION ++ [1, 1], []⟩ :=
  c7_truncated_serverinit (List.replicate 10 0) (by decide)

/-! ## Claim C6 -/

/-- C6: when an established client sends FramebufferUpdateRequest with
incremental 0, x 0, y 0, width 1024, height 768, the server session loop
answers with a FramebufferUpdate of type byte 0, one padding byte and
big-endian 16-bit rectangle count 0, and the loop stays open; with further
chunks after the request the loop keeps processing them. -/
theorem c6_fbur_empty_update :
    sessionLoop [c6Request] = ⟨[0] ++ [0] ++ be16 0, [3], true⟩ ∧
    (∀ more : List (List Nat),
      sessionLoop (c6Request :: more) =
        ⟨([0] ++ [0] ++ be16 0) ++ (sessionLoop more).sent,
          3 :: (sessionLoop more).dispatched,
          (sessionLoop more).stillOpen⟩) :=
  ⟨by decide, fun _ => rfl⟩

/-! ## Claim C8 -/

/-- C8 counterexample: none of the three reads the server performs during
its handshake (client version, security selection, ClientInit) has any
timeout in force; the first settimeout call of handle_client happens only in
the post-handshake session loop, so server handshake reads can block
indefinitely. -/
theorem c8_counterexample :
    recvTimeouts none serverHandshakeOps = [none, none, none] ∧
    ((recvTimeouts none serverHandshakeOps).all fun t => t.isSome) = false := by
  decide

/-- C8 amended: every read the client performs during the handshake runs
under the 5-second timeout it sets at socket creation, but the server sets
no timeout before or during its three handshake reads; its first settimeout
(1 second) only takes effect for the session-loop reads after the handshake
is complete. -/
theorem c8_timeouts :
    recvTimeouts none clientHandshakeOps = List.replicate 7 (some 5000) ∧
    recvTimeouts none (serverHandshakeOps ++ serverSessionOps) =
      [none, none, none, some 1000] := by decide

/-! ## Claim C9 -/

/-- C9 counterexample: a single transport chunk carrying a
FramebufferUpdateRequest immediately followed by a KeyEvent is dispatched
once, on tag 3 alone; splitting the same bytes by the per-type widths of the
wire table yields the two messages 3 and 4, so the loop coalesces the two
inbound messages into a single dispatch and the KeyEvent is never
processed. -/
theorem c9_counterexample :
    (sessionLoop [coalescedChunk]).dispatched = [3] ∧
    specMessages coalescedChunk = [3, 4] ∧
    (sessionLoop [coalescedChunk]).sent = [0, 0, 0, 0] ∧
    (sessionLoop [coalescedChunk]).dispatched ≠ specMessages coalescedChunk := by
  decide

/-- C9 amended: the session loop performs exactly one dispatch per received
transport chunk, keyed on the first byte of the chunk alone; it never parses
per-type byte widths, so any bytes after the first message in a chunk are
dropped and two coalesced messages yield one dispatch, while the loop stays
open as long as no 0-byte read occurs. -/
theorem c9_one_dispatch_per_chunk (chunks : List (List Nat))
    (h : ∀ c ∈ chunks, c ≠ []) :
    (sessionLoop chunks).dispatched = chunks.map (fun c => c.headD 0) ∧
    (sessionLoop chunks).stillOpen = true := by
  induction chunks with
  | nil => exact ⟨rfl, rfl⟩
  | cons c rest ih =>
    match c with
    | [] => exact absurd rfl (h [] (by simp))
    | t :: ts =>
      have hr := ih (fun x hx => h x (List.mem_cons_of_mem _ hx))
      refine ⟨?_, ?_⟩
      · simp [sessionLoop, hr.1]
      · simp [sessionLoop, hr.2]

/-- C9 witness: the amended theorem on two chunks of one message each. -/
theorem c9_witness :
    (sessionLoop [c6Request, keyEventA]).dispatched =
      [c6Request, keyEventA].map (fun c => c.headD 0) ∧
    (sessionLoop [c6Request, keyEventA]).stillOpen = true :=
  c9_one_dispatch_per_chunk [c6Request, keyEventA] (by decide)

/-! ## Claim C10 -/

/-- C10 counterexample: the 12-byte version "  RFB 003.0" with a newline
does not begin with "RFB 003." in its raw ASCII decoding, yet the client
continues the handshake on it (all the way to Established here), because the
code strips leading and trailing whitespace before the startswith test. -/
theorem c10_counterexample :
    stateFailed (clientHandshake
      (wsVersion ++ [1, SECURITY_NONE] ++ be32 0 ++ serverInitBytes)).state
      = false ∧
    (clientHandshake
      (wsVersion ++ [1, SECURITY_NONE] ++ be32 0 ++ serverInitBytes)).sent.take 12
      = wsVersion ∧
    listStartsWith versionMagic wsVersion = false := by decide

/-- C10 amended: for every 12-byte version received, the client continues
past the version step (it never reports InvalidVersion) if and only if the
bytes are ASCII and their whitespace-stripped form begins with "RFB 003.";
any minor version is accepted, and whenever it continues, the first 12 bytes
it sends are byte-for-byte the bytes it received. -/
theorem c10_version_acceptance (v rest : List Nat) (h12 : v.length = 12) :
    ((clientHandshake (v ++ rest)).state ≠
        CState.Failed FailReason.InvalidVersion ↔ versionOk v = true) ∧
    (versionOk v = true → (clientHandshake (v ++ rest)).sent.take 12 = v) := by
  have e1 : (v ++ rest).take 12 = v := List.take_left' h12
  have e2 : (v ++ rest).drop 12 = rest := List.drop_left' h12
  simp only [clientHandshake, e1, e2, h12, if_true, ite_true]
  cases hv : versionOk v with
  | false =>
    simp [hv]
  | true =>
    simp only [hv, if_true, ite_true]
    refine ⟨iff_true_intro (cfo_ne_invalid v rest), fun _ => ?_⟩
    obtain ⟨ex, he⟩ := cfo_sent_ext v rest
    rw [he, ← h12]
    exact List.take_left v ex

/-- C10 witness: the amended theorem at the version the server sends. -/
theorem c10_witness :
    ((clientHandshake (RFB_VERSION ++ [])).state ≠
        CState.Failed FailReason.InvalidVersion ↔ versionOk RFB_VERSION = true) ∧
    (versionOk RFB_VERSION = true →
      (clientHandshake (RFB_VERSION ++ [])).sent.take 12 = RFB_VERSION) :=
  c10_version_acceptance RFB_VERSION [] (by decide)
